import Mathlib

/-!
Verification development for the duckai OpenAI-compatible bridge.

The definitions below are a shallow embedding of the TypeScript sources:
`src/openai-service.ts` (OpenAIService), `src/types.ts` (wire types) and the
DuckAI upstream client (`duckai.ts`).  JavaScript strings are modelled as Lean
`String`, JS numbers carrying millisecond timestamps as `Int` (they never
overflow a double in the ranges of interest), and fallible code as `Except`.
Platform builtins with no source in the repository (`JSON.parse`, the
ToolService living in `tool-service.ts`, SHA-256, `JSON.stringify` of the
challenge result object) are taken as explicit function parameters of the
embedded operations.
-/

namespace Duckai

/-! ## JavaScript string helpers -/

/-- Character class of the regex escape used by the source patterns
(approximates the full JS whitespace class by its ASCII part, which is all
that the embedded call sites can produce). -/
def isSpaceChar (c : Char) : Bool :=
  c == ' ' || c == '\t' || c == '\n' || c == '\r' || c == '\x0b' || c == '\x0c'

/-- Digit character class of the JS regexes. -/
def isDigitChar (c : Char) : Bool :=
  '0' ≤ c && c ≤ '9'

/-- Arithmetic operator class of the regex used by the calculator heuristic. -/
def isOpChar (c : Char) : Bool :=
  c == '+' || c == '-' || c == '*' || c == '/'

/-- Character class of the location capture group of the weather regex. -/
def isLocChar (c : Char) : Bool :=
  ('A' ≤ c && c ≤ 'Z') || ('a' ≤ c && c ≤ 'z') || isSpaceChar c || c == ','

/-- Does the haystack start with the needle (plain character comparison)? -/
def leadsWith : List Char → List Char → Bool
  | [], _ => true
  | _ :: _, [] => false
  | a :: as, b :: bs => a == b && leadsWith as bs

/-- Substring containment, the model of the JS `String.prototype.includes`. -/
def hasSub (needle : List Char) : List Char → Bool
  | [] => leadsWith needle []
  | c :: cs => leadsWith needle (c :: cs) || hasSub needle cs

/-- The JS `haystack.includes(needle)`. -/
def strIncludes (haystack needle : String) : Bool :=
  hasSub needle.data haystack.data

/-- The JS `String.prototype.toLowerCase` (ASCII part, which is all the
keyword checks of the source compare against). -/
def jsToLower (s : String) : String :=
  String.mk (s.data.map Char.toLower)

/-- Greedy match of the pattern `\d+\s*[+\-*\/]\s*\d+` anchored at the start
of the character list, returning the matched characters.  Maximal munch is
equivalent to the backtracking JS engine here because the three classes are
pairwise disjoint. -/
def mathMatchAt (cs : List Char) : Option (List Char) :=
  let d1 := cs.takeWhile isDigitChar
  let r1 := cs.dropWhile isDigitChar
  if d1.isEmpty then none
  else
    let s1 := r1.takeWhile isSpaceChar
    let r2 := r1.dropWhile isSpaceChar
    match r2 with
    | [] => none
    | op :: r3 =>
      if isOpChar op then
        let s2 := r3.takeWhile isSpaceChar
        let r4 := r3.dropWhile isSpaceChar
        let d2 := r4.takeWhile isDigitChar
        if d2.isEmpty then none
        else some (d1 ++ s1 ++ op :: s2 ++ d2)
      else none

/-- Leftmost match of `\d+\s*[+\-*\/]\s*\d+`, the model of both
`/\d+\s*[+\-*\/]\s*\d+/.test(s)` and `s.match(/(\d+\s*[+\-*\/]\s*\d+)/)` of
`openai-service.ts`. -/
def mathMatchFirst : List Char → Option (List Char)
  | [] => none
  | c :: cs =>
    match mathMatchAt (c :: cs) with
    | some m => some m
    | none => mathMatchFirst cs

/-- The test `/\d+\s*[+\-*\/]\s*\d+/.test(userContent)`. -/
def mathTest (s : String) : Bool :=
  (mathMatchFirst s.data).isSome

/-- Case-insensitive keyword strip: if `cs` starts with `kw` (compared
lowercased), return the remainder. -/
def stripKwCI : List Char → List Char → Option (List Char)
  | [], cs => some cs
  | _ :: _, [] => none
  | k :: ks, c :: cs => if k == c.toLower then stripKwCI ks cs else none

/-- After one of the keywords of `/(?:in|for|at)\s+([A-Za-z\s,]+)/i` matched,
match `\s+([A-Za-z\s,]+)` and return the capture.  Because whitespace is also
inside the capture class, the backtracking engine can hand the last whitespace
character to the capture when nothing else follows the run. -/
def locMatchAfterKw (cs : List Char) : Option (List Char) :=
  let w := cs.takeWhile isSpaceChar
  let rest := cs.dropWhile isSpaceChar
  if w.isEmpty then none
  else
    let cap := rest.takeWhile isLocChar
    if !cap.isEmpty then some cap
    else if 2 ≤ w.length then some [w.getLastD ' ']
    else none

/-- Try the three alternatives of `(?:in|for|at)` at this position, in the
order the JS alternation tries them. -/
def locMatchAt (cs : List Char) : Option (List Char) :=
  match stripKwCI ['i', 'n'] cs with
  | some rest =>
    match locMatchAfterKw rest with
    | some cap => some cap
    | none =>
      match stripKwCI ['f', 'o', 'r'] cs with
      | some rest2 =>
        match locMatchAfterKw rest2 with
        | some cap => some cap
        | none =>
          match stripKwCI ['a', 't'] cs with
          | some rest3 => locMatchAfterKw rest3
          | none => none
      | none =>
        match stripKwCI ['a', 't'] cs with
        | some rest3 => locMatchAfterKw rest3
        | none => none
  | none =>
    match stripKwCI ['f', 'o', 'r'] cs with
    | some rest2 =>
      match locMatchAfterKw rest2 with
      | some cap => some cap
      | none =>
        match stripKwCI ['a', 't'] cs with
        | some rest3 => locMatchAfterKw rest3
        | none => none
    | none =>
      match stripKwCI ['a', 't'] cs with
      | some rest3 => locMatchAfterKw rest3
      | none => none

/-- Leftmost match of the weather location regex
`/(?:in|for|at)\s+([A-Za-z\s,]+)/i`, returning capture group 1. -/
def locMatchFirst : List Char → Option (List Char)
  | [] => none
  | c :: cs =>
    match locMatchAt (c :: cs) with
    | some cap => some cap
    | none => locMatchFirst cs

/-! ## Token estimation (`openai-service.ts:67`) -/

/-- The source `estimateTokens`: `Math.ceil(text.length / 4)`, which on a
natural number length is the ceiling division `(length + 3) / 4`. -/
def estimateTokens (text : String) : Nat :=
  (text.length + 3) / 4

/-! ## JSON serialization fragments used by the forced tool call -/

/-- JSON string escaping as performed by `JSON.stringify` (covering the quote,
backslash and the common control characters; other control characters do not
occur in the embedded call sites). -/
def jsonEscape (s : String) : String :=
  String.mk (s.data.foldr
    (fun c acc =>
      match c with
      | '"' => '\\' :: '"' :: acc
      | '\\' => '\\' :: '\\' :: acc
      | '\n' => '\\' :: 'n' :: acc
      | '\t' => '\\' :: 't' :: acc
      | '\r' => '\\' :: 'r' :: acc
      | c => c :: acc) [])

/-- The JS `JSON.stringify` of a one-string-field object literal. -/
def jsonObj1 (key value : String) : String :=
  "\x7b\"" ++ key ++ "\":\"" ++ jsonEscape value ++ "\"\x7d"

/-! ## Base64 (the JS `btoa` and `digest('base64')`) -/

/-- The standard base64 alphabet. -/
def b64Alphabet : List Char :=
  "ABCDEFGHIJKLMNOPQRSTUVWXYZabcdefghijklmnopqrstuvwxyz0123456789+/".data

/-- Character for a 6-bit group. -/
def b64Char (n : Nat) : Char :=
  b64Alphabet.getD n 'A'

/-- Base64 of a byte list, with padding. -/
def b64encodeList : List Nat → List Char
  | [] => []
  | [a] => [b64Char (a / 4), b64Char (a % 4 * 16), '=', '=']
  | [a, b] => [b64Char (a / 4), b64Char (a % 4 * 16 + b / 16), b64Char (b % 16 * 4), '=']
  | a :: b :: c :: rest =>
    b64Char (a / 4) :: b64Char (a % 4 * 16 + b / 16) ::
      b64Char (b % 16 * 4 + c / 64) :: b64Char (c % 64) :: b64encodeList rest

/-- The JS `btoa`: base64 of the code points of a latin-1 string. -/
def btoa (s : String) : String :=
  String.mk (b64encodeList (s.data.map Char.toNat))

/-! ## Wire types (`src/types.ts`)

Roles, object tags and finish reasons are string unions in the source and are
kept as `String` here.  `content: string | null` becomes `Option String`.
Sampling parameters (`temperature`, `top_p`, ...) are floats that the embedded
code only ever copies and never reads, so they are not modelled. -/

structure ToolCallFunction where
  name : String
  arguments : String
deriving DecidableEq, Repr

structure ToolCall where
  id : String
  type : String := "function"
  function : ToolCallFunction
deriving DecidableEq, Repr

structure FunctionDefinition where
  name : String
  description : Option String := none
deriving DecidableEq, Repr

structure ToolDefinition where
  type : String := "function"
  function : FunctionDefinition
deriving DecidableEq, Repr

inductive ToolChoice where
  | tcNone
  | tcAuto
  | tcRequired
  | tcFunction (name : String)
deriving DecidableEq, Repr

structure ChatCompletionMessage where
  role : String
  content : Option String
  name : Option String := none
  tool_calls : Option (List ToolCall) := none
  tool_call_id : Option String := none
deriving DecidableEq, Repr

structure ChatCompletionRequest where
  model : String
  messages : List ChatCompletionMessage
  stream : Bool := false
  tools : Option (List ToolDefinition) := none
  tool_choice : Option ToolChoice := none
deriving DecidableEq, Repr

structure ChatCompletionUsage where
  prompt_tokens : Nat
  completion_tokens : Nat
  total_tokens : Nat
deriving DecidableEq, Repr

structure ChatCompletionChoice where
  index : Nat
  message : ChatCompletionMessage
  finish_reason : Option String
deriving DecidableEq, Repr

structure ChatCompletionResponse where
  id : String
  object : String := "chat.completion"
  created : Nat
  model : String
  choices : List ChatCompletionChoice
  usage : ChatCompletionUsage
deriving DecidableEq, Repr

structure ChunkDelta where
  role : Option String := none
  content : Option String := none
  tool_calls : Option (List ToolCall) := none
deriving DecidableEq, Repr

structure ChunkChoice where
  index : Nat
  delta : ChunkDelta
  finish_reason : Option String
deriving DecidableEq, Repr

structure ChatCompletionStreamResponse where
  id : String
  object : String := "chat.completion.chunk"
  created : Nat
  model : String
  choices : List ChunkChoice
deriving DecidableEq, Repr

structure DuckAIRequest where
  model : String
  messages : List ChatCompletionMessage
deriving DecidableEq, Repr

/-! ## Rate governor (`duckai.ts`, `shouldWaitBeforeRequest`)

Timestamps are JS `Date.now()` milliseconds, modelled as `Int`.  The class
constants `MAX_REQUESTS_PER_MINUTE = 20`, `WINDOW_SIZE_MS = 60000`,
`MIN_REQUEST_INTERVAL_MS = 1000`. -/

def WINDOW_SIZE_MS : Int := 60000

def MAX_REQUESTS_PER_MINUTE : Nat := 20

def MIN_REQUEST_INTERVAL_MS : Int := 1000

structure RateLimitInfo where
  requestTimestamps : List Int
  lastRequestTime : Int
deriving DecidableEq, Repr

/-- The source `cleanOldTimestamps`: keep timestamps strictly newer than
`now - WINDOW_SIZE_MS`. -/
def cleanOldTimestamps (now : Int) (ts : List Int) : List Int :=
  ts.filter (fun t => now - WINDOW_SIZE_MS < t)

/-- The minimum-interval continuation at the end of
`shouldWaitBeforeRequest` (`duckai.ts:254-260`), reached whenever the window
check does not return. -/
def intervalCheck (now : Int) (info : RateLimitInfo) : Bool × Int :=
  let timeSinceLastRequest := now - info.lastRequestTime
  if timeSinceLastRequest < MIN_REQUEST_INTERVAL_MS then
    (true, MIN_REQUEST_INTERVAL_MS - timeSinceLastRequest)
  else
    (false, 0)

/-- The source `shouldWaitBeforeRequest`.  The window check reads
`requestTimestamps[0]` after cleaning; the JS truthiness test
`if (oldestTimestamp)` is the `oldest ≠ 0` guard.  A full window yields a wait
until the oldest entry leaves the window plus a 100 ms buffer, clamped at
zero; otherwise a violated minimum interval yields exactly the remaining
deficit. -/
def shouldWaitBeforeRequest (now : Int) (info : RateLimitInfo) : Bool × Int :=
  let ts := cleanOldTimestamps now info.requestTimestamps
  if MAX_REQUESTS_PER_MINUTE ≤ ts.length then
    match ts.head? with
    | some oldest =>
      if oldest ≠ 0 then
        (true, max 0 (oldest + WINDOW_SIZE_MS - now + 100))
      else
        intervalCheck now info
    | none => intervalCheck now info
  else
    intervalCheck now info

/-! ## Upstream reply processing (`duckai.ts`, `DuckAI.chat` after a 200)

`JSON.parse` is a platform builtin; it enters the embedding as two oracle
parameters: `parseAction text` is the top-level `action` field when `text`
parses as JSON carrying one (and `none` when the parse throws or the field is
absent), and `lineMessage payload` is the truthy `message` field of a parsed
`data: ` line (`none` when the parse throws or the field is falsy). -/

def APOLOGY : String :=
  "I apologize, but I\x27m unable to provide a response at the moment. Please try again."

/-- The try-block of `DuckAI.chat` (the error check on the full body): parse
the body and, when the payload announces `action: "error"`, throw. -/
def chatErrorCheck (parseAction : String → Option String) (text : String) :
    Except String Unit :=
  match parseAction text with
  | some a => if a == "error" then Except.error "Duck.ai error" else Except.ok ()
  | none => Except.ok ()

/-- Split a character list at newline characters (the JS `split("\n")`,
which keeps empty pieces). -/
def splitNlChars : List Char → List (List Char)
  | [] => [[]]
  | c :: cs =>
    if c == '\n' then [] :: splitNlChars cs
    else
      match splitNlChars cs with
      | [] => [[c]]
      | l :: ls => (c :: l) :: ls

/-- The JS `text.split("\n")`. -/
def splitOnNewline (text : String) : List String :=
  (splitNlChars text.data).map String.mk

/-- The JS `String.prototype.trim` (over the ASCII whitespace characters the
embedded strings can contain). -/
def jsTrim (s : String) : String :=
  String.mk (((s.data.dropWhile isSpaceChar).reverse.dropWhile isSpaceChar).reverse)

/-- The accumulation loop of `DuckAI.chat`: split the body on newlines and
concatenate the `message` fields of the `data: ` lines. -/
def extractLlmResponse (lineMessage : String → Option String) (text : String) :
    String :=
  (splitOnNewline text).foldl
    (fun acc line =>
      if leadsWith "data: ".data line.data then
        match lineMessage (String.mk (line.data.drop 6)) with
        | some m => acc ++ m
        | none => acc
      else acc) ""

/-- The body-processing tail of `DuckAI.chat` on an HTTP 200 reply.  The
`catch` of the error check swallows every exception the try-block raises,
including the `Duck.ai error` throw itself, so both outcomes of
`chatErrorCheck` continue into extraction; its result is discarded.  An
accumulated text that trims to empty is replaced by the fixed apology. -/
def duckChatBody (parseAction lineMessage : String → Option String)
    (text : String) : String :=
  let _errCheck := chatErrorCheck parseAction text
  let finalResponse := jsTrim (extractLlmResponse lineMessage text)
  if finalResponse == "" then APOLOGY else finalResponse

/-! ## Challenge token post-processing (`duckai.ts`, `getEncodedVqdHash`)

The challenge program runs inside JSDOM and returns an object with a
`client_hashes` string list plus arbitrary further fields; the further fields
and `JSON.stringify` over the whole object are opaque here (`rest`,
`stringify`), and SHA-256 enters as a byte-level parameter. -/

structure VqdResult where
  client_hashes : List String
  rest : List (String × String) := []
deriving DecidableEq, Repr

def FIXED_UA : String :=
  "Mozilla/5.0 (Windows NT 10.0; Win64; x64) AppleWebKit/537.36 (KHTML, like Gecko) Chrome/138.0.0.0 Safari/537.36"

/-- The JS assignment `arr[0] = v`: on an empty array this creates index 0. -/
def jsIndexZeroSet (l : List String) (v : String) : List String :=
  match l with
  | [] => [v]
  | _ :: t => v :: t

/-- The post-processing tail of `getEncodedVqdHash`: overwrite
`client_hashes[0]` with the fixed browser identifier, replace every entry by
the base64 of its SHA-256 digest, then `btoa(JSON.stringify(result))`. -/
def getEncodedVqdHash (sha256 : String → List Nat)
    (stringify : VqdResult → String) (result : VqdResult) : String :=
  let r1 : VqdResult :=
    { result with client_hashes := jsIndexZeroSet result.client_hashes FIXED_UA }
  let r2 : VqdResult :=
    { r1 with
      client_hashes := r1.client_hashes.map (fun t => String.mk (b64encodeList (sha256 t))) }
  btoa (stringify r2)

/-! ## ToolService interface

`tool-service.ts` is not among the provided sources; only its call sites in
`openai-service.ts` are.  Its five operations used there enter the embedding
as an abstract record of functions, so every theorem below quantifies over
all possible ToolService behaviours. -/

structure ToolServiceModel where
  shouldUseFunctionCalling : Option (List ToolDefinition) → Option ToolChoice → Bool
  validateTools : List ToolDefinition → Bool × List String
  generateToolSystemPrompt : List ToolDefinition → Option ToolChoice → String
  detectFunctionCalls : String → Bool
  extractFunctionCalls : String → List ToolCall

/-! ## Protocol translation (`openai-service.ts`) -/

def DEFAULT_MODEL : String := "mistralai/Mistral-Small-24B-Instruct-2501"

/-- The source `transformToDuckAIRequest`: pick the model (`request.model ||
default`, where the empty string is falsy) and pass the message list through
unchanged. -/
def transformToDuckAIRequest (request : ChatCompletionRequest) : DuckAIRequest :=
  { model := if request.model == "" then DEFAULT_MODEL else request.model
    messages := request.messages }

/-- The JS `m.content || ""` used when joining prompt text. -/
def contentOrEmpty (m : ChatCompletionMessage) : String :=
  m.content.getD ""

/-- The prompt text `messages.map((m) => m.content || "").join(" ")`. -/
def promptTextOf (messages : List ChatCompletionMessage) : String :=
  String.intercalate " " (messages.map contentOrEmpty)

/-- The user message `openai-service.ts:154` unshifts in front of the
conversation when tools are declared. -/
def toolInstructionMessage (ts : ToolServiceModel) (tools : List ToolDefinition)
    (toolChoice : Option ToolChoice) : ChatCompletionMessage :=
  { role := "user"
    content := some ("[SYSTEM INSTRUCTIONS] " ++ ts.generateToolSystemPrompt tools toolChoice ++
      "\n\nPlease follow these instructions when responding to the following user message.") }

/-- The `modifiedMessages` of `createChatCompletionWithTools`: the original
list with the tool-instruction user message unshifted when
`request.tools && request.tools.length > 0`. -/
def modifiedMessagesOf (ts : ToolServiceModel) (request : ChatCompletionRequest) :
    List ChatCompletionMessage :=
  match request.tools with
  | some (hd :: tl) =>
    toolInstructionMessage ts (hd :: tl) request.tool_choice :: request.messages
  | _ => request.messages

/-- Message list of the upstream request issued by the tools path. -/
def upstreamMessagesWithTools (ts : ToolServiceModel)
    (request : ChatCompletionRequest) : List ChatCompletionMessage :=
  (transformToDuckAIRequest { request with messages := modifiedMessagesOf ts request }).messages

/-- Guard of the forced-call fallback: `tool_choice === "required" ||
(typeof tool_choice === "object" && tool_choice.type === "function")`. -/
def isForcedChoice : Option ToolChoice → Bool
  | some ToolChoice.tcRequired => true
  | some (ToolChoice.tcFunction _) => true
  | _ => false

/-- Function-picking heuristic of the forced-call fallback
(`openai-service.ts:229-252`): default to the first declared tool, then let
the `time` / `calculate`-or-arithmetic / `weather` keyword checks override it
when a matching declared tool exists. -/
def chooseFunction (hd : ToolDefinition) (tl : List ToolDefinition)
    (userContent : String) : String :=
  let tools := hd :: tl
  let dflt := hd.function.name
  let lc := jsToLower userContent
  if strIncludes lc "time" then
    match tools.find? (fun t => t.function.name == "get_current_time") with
    | some t => t.function.name
    | none => dflt
  else if strIncludes lc "calculate" || mathTest userContent then
    match tools.find? (fun t => t.function.name == "calculate") with
    | some t => t.function.name
    | none => dflt
  else if strIncludes lc "weather" then
    match tools.find? (fun t => t.function.name == "get_weather") with
    | some t => t.function.name
    | none => dflt
  else dflt

/-- Selection of the function to force (`openai-service.ts:220-252`): an
explicitly named function is used as-is, otherwise the keyword heuristic
decides. -/
def forcedFunctionName (toolChoice : Option ToolChoice) (hd : ToolDefinition)
    (tl : List ToolDefinition) (userContent : String) : String :=
  match toolChoice with
  | some (ToolChoice.tcFunction n) => n
  | _ => chooseFunction hd tl userContent

/-- Argument synthesis of the forced-call fallback
(`openai-service.ts:254-269`): `"{}"` unless the chosen function is the
calculator (extract the arithmetic expression) or the weather tool (extract a
trimmed location). -/
def forcedArgs (functionToCall userContent : String) : String :=
  if functionToCall == "calculate" then
    match mathMatchFirst userContent.data with
    | some m => jsonObj1 "expression" (String.mk m)
    | none => "\x7b\x7d"
  else if functionToCall == "get_weather" then
    match locMatchFirst userContent.data with
    | some cap => jsonObj1 "location" (String.mk cap).trim
    | none => "\x7b\x7d"
  else "\x7b\x7d"

/-- The `JSON.stringify(forcedToolCall)` fed to `estimateTokens`: field order
is insertion order of the object literal. -/
def jsonStringifyToolCall (tc : ToolCall) : String :=
  "\x7b\"id\":\"" ++ jsonEscape tc.id ++ "\",\"type\":\"" ++ jsonEscape tc.type ++
    "\",\"function\":\x7b\"name\":\"" ++ jsonEscape tc.function.name ++
    "\",\"arguments\":\"" ++ jsonEscape tc.function.arguments ++ "\"\x7d\x7d"

/-- The forced tool call object (`openai-service.ts:271-278`); its id is
`call_` followed by `Date.now()`. -/
def forcedToolCallOf (nowMs : Nat) (functionToCall args : String) : ToolCall :=
  { id := "call_" ++ toString nowMs
    function := { name := functionToCall, arguments := args } }

/-- Completion returned by the forced-call branch
(`openai-service.ts:286-307`). -/
def forcedCompletion (id : String) (created : Nat)
    (request : ChatCompletionRequest)
    (modifiedMessages : List ChatCompletionMessage)
    (forcedToolCall : ToolCall) : ChatCompletionResponse :=
  let promptTokens := estimateTokens (promptTextOf modifiedMessages)
  let completionTokens := estimateTokens (jsonStringifyToolCall forcedToolCall)
  { id
    created
    model := request.model
    choices := [{ index := 0
                  message := { role := "assistant", content := none
                               tool_calls := some [forcedToolCall] }
                  finish_reason := some "tool_calls" }]
    usage := { prompt_tokens := promptTokens
               completion_tokens := completionTokens
               total_tokens := promptTokens + completionTokens } }

/-- Completion returned when the tools path finds extracted calls
(`openai-service.ts:181-202`). -/
def extractedCompletion (id : String) (created : Nat)
    (request : ChatCompletionRequest)
    (modifiedMessages : List ChatCompletionMessage)
    (response : String) (toolCalls : List ToolCall) : ChatCompletionResponse :=
  let promptTokens := estimateTokens (promptTextOf modifiedMessages)
  let completionTokens := estimateTokens response
  { id
    created
    model := request.model
    choices := [{ index := 0
                  message := { role := "assistant", content := none
                               tool_calls := some toolCalls }
                  finish_reason := some "tool_calls" }]
    usage := { prompt_tokens := promptTokens
               completion_tokens := completionTokens
               total_tokens := promptTokens + completionTokens } }

/-- Plain completion over a given prompt-message list
(`openai-service.ts:108-128` and `:315-335`). -/
def plainCompletion (id : String) (created : Nat)
    (request : ChatCompletionRequest)
    (promptMessages : List ChatCompletionMessage)
    (response : String) : ChatCompletionResponse :=
  let promptTokens := estimateTokens (promptTextOf promptMessages)
  let completionTokens := estimateTokens response
  { id
    created
    model := request.model
    choices := [{ index := 0
                  message := { role := "assistant", content := some response }
                  finish_reason := some "stop" }]
    usage := { prompt_tokens := promptTokens
               completion_tokens := completionTokens
               total_tokens := promptTokens + completionTokens } }

/-- Fallthrough of the tools path after no (usable) marker was detected
(`openai-service.ts:206-335`): force a call when the tool choice demands one,
otherwise answer with the plain completion.  Reading `messages[length-1]` of
an empty conversation throws in JS (`TypeError`). -/
def noFunctionCallsPath (id : String) (created nowMs : Nat)
    (request : ChatCompletionRequest) (response : String)
    (modifiedMessages : List ChatCompletionMessage) :
    Except String ChatCompletionResponse :=
  match request.tools, isForcedChoice request.tool_choice with
  | some (hd :: tl), true =>
    match request.messages.getLast? with
    | none => Except.error "TypeError: cannot read properties of undefined"
    | some userMessage =>
      Except.ok (forcedCompletion id created request modifiedMessages
        (forcedToolCallOf nowMs
          (forcedFunctionName request.tool_choice hd tl (userMessage.content.getD ""))
          (forcedArgs
            (forcedFunctionName request.tool_choice hd tl (userMessage.content.getD ""))
            (userMessage.content.getD ""))))
  | _, _ =>
    Except.ok (plainCompletion id created request modifiedMessages response)

/-- The marker check and dispatch of `createChatCompletionWithTools` after
tools validation passed (`openai-service.ts:145-335`): when the detector
fires and extraction yields at least one call, answer with the extracted
calls; otherwise fall through to the forced-or-plain continuation. -/
def withToolsAfterValidation (ts : ToolServiceModel) (id : String)
    (created nowMs : Nat) (request : ChatCompletionRequest)
    (response : String) : Except String ChatCompletionResponse :=
  if ts.detectFunctionCalls response then
    if 0 < (ts.extractFunctionCalls response).length then
      Except.ok (extractedCompletion id created request (modifiedMessagesOf ts request)
        response (ts.extractFunctionCalls response))
    else
      noFunctionCallsPath id created nowMs request response (modifiedMessagesOf ts request)
  else
    noFunctionCallsPath id created nowMs request response (modifiedMessagesOf ts request)

/-- The source `createChatCompletionWithTools`: throw on invalid declared
tools, else continue.  `response` is the text `duckAI.chat` returned for the
modified request. -/
def createChatCompletionWithTools (ts : ToolServiceModel) (id : String)
    (created nowMs : Nat) (request : ChatCompletionRequest)
    (response : String) : Except String ChatCompletionResponse :=
  match request.tools with
  | some tl =>
    if (ts.validateTools tl).1 then
      withToolsAfterValidation ts id created nowMs request response
    else
      Except.error ("Invalid tools: " ++ String.intercalate ", " (ts.validateTools tl).2)
  | none => withToolsAfterValidation ts id created nowMs request response

/-- The source `createChatCompletion`: dispatch to the tools path when the
ToolService says so, else the plain path over the unmodified messages. -/
def createChatCompletion (ts : ToolServiceModel) (id : String)
    (created nowMs : Nat) (request : ChatCompletionRequest)
    (response : String) : Except String ChatCompletionResponse :=
  if ts.shouldUseFunctionCalling request.tools request.tool_choice then
    createChatCompletionWithTools ts id created nowMs request response
  else
    Except.ok (plainCompletion id created request request.messages response)

/-! ## Streaming translation (`openai-service.ts`, `createChatCompletionStream`)

Each enqueued `data: <json>\n\n` line is modelled as a `chunk` event over the
serialized object; the literal `data: [DONE]\n\n` line is `doneMarker`. -/

inductive StreamEvent where
  | chunk (c : ChatCompletionStreamResponse)
  | doneMarker
deriving DecidableEq, Repr

def mkStreamChunk (id : String) (created : Nat) (model : String)
    (delta : ChunkDelta) (finishReason : Option String) :
    ChatCompletionStreamResponse :=
  { id, created, model
    choices := [{ index := 0, delta, finish_reason := finishReason }] }

/-- Final stop chunk plus termination marker, shared by both stream endings. -/
def streamTail (id : String) (created : Nat) (model : String) : List StreamEvent :=
  [StreamEvent.chunk (mkStreamChunk id created model {} (some "stop")),
   StreamEvent.doneMarker]

/-- The pump loop of `createChatCompletionStream`: the first fragment read
goes out with `delta = {role, content}`, later fragments with
`delta = {content}`; stream end appends the stop chunk and the marker. -/
def streamPump (id : String) (created : Nat) (model : String) :
    List String → Bool → List StreamEvent
  | [], _ => streamTail id created model
  | v :: vs, isFirst =>
    StreamEvent.chunk (mkStreamChunk id created model
      (if isFirst then { role := some "assistant", content := some v }
       else { content := some v }) none) :: streamPump id created model vs false

/-- Event sequence the plain (no-tools) streaming path emits for the given
upstream fragment sequence. -/
def createChatCompletionStreamEvents (id : String) (created : Nat)
    (model : String) (fragments : List String) : List StreamEvent :=
  streamPump id created model fragments true

/-- Event sequence the specification text describes: a content-free
role-only chunk, then one content chunk per fragment, then the stop chunk and
the marker.  Stated here only to compare against the source behaviour. -/
def specStreamEvents (id : String) (created : Nat) (model : String)
    (fragments : List String) : List StreamEvent :=
  StreamEvent.chunk (mkStreamChunk id created model { role := some "assistant" } none) ::
    fragments.map (fun v =>
      StreamEvent.chunk (mkStreamChunk id created model { content := some v } none)) ++
    streamTail id created model

/-- Content fragments carried by an event sequence, in order. -/
def chunkContents (events : List StreamEvent) : List String :=
  events.foldr
    (fun e acc =>
      match e with
      | StreamEvent.chunk c =>
        c.choices.foldr
          (fun ch a =>
            match ch.delta.content with
            | some s => s :: a
            | none => a) [] ++ acc
      | StreamEvent.doneMarker => acc) []

/-! ## Request validation (`openai-service.ts`, `validateRequest`)

The inbound body is untyped JSON; `RawContent` distinguishes the JS values
the validator branches on (`undefined`, `null`, a string, anything else), and
`messages = none` models a missing or non-array `messages` field. -/

inductive RawContent where
  | undef
  | null
  | str (s : String)
  | other
deriving DecidableEq, Repr

structure RawMessage where
  role : Option String := none
  content : RawContent := RawContent.undef
  tool_call_id : Option String := none
deriving DecidableEq, Repr

structure RawRequest where
  model : Option String := none
  messages : Option (List RawMessage) := none
  stream : Option Bool := none
  tools : Option (List ToolDefinition) := none
  tool_choice : Option ToolChoice := none
deriving Repr

def VALID_ROLES : List String := ["system", "user", "assistant", "tool"]

/-- Per-message checks of the validation loop
(`openai-service.ts:572-599`), returning the first error thrown. -/
def validateMessage (m : RawMessage) : Option String :=
  let roleOk := match m.role with
    | some r => r != "" && VALID_ROLES.contains r
    | none => false
  if !roleOk then
    some "Each message must have a valid role (system, user, assistant, or tool)"
  else if m.role == some "tool" then
    let tcidTruthy := match m.tool_call_id with
      | some s => s != ""
      | none => false
    if !tcidTruthy then some "Tool messages must have a tool_call_id"
    else
      match m.content with
      | RawContent.str _ => none
      | _ => some "Tool messages must have content as a string"
  else
    match m.content with
    | RawContent.undef => some "Each message must have content as a string or null"
    | RawContent.null => none
    | RawContent.str _ => none
    | RawContent.other => some "Each message must have content as a string or null"

/-- First error of the message loop, if any. -/
def firstMessageError : List RawMessage → Option String
  | [] => none
  | m :: ms =>
    match validateMessage m with
    | some e => some e
    | none => firstMessageError ms

/-- Validated message as the typed layer sees it (the `undefined` and
non-string cases cannot survive validation and default to a null content). -/
def toTypedMessage (m : RawMessage) : ChatCompletionMessage :=
  { role := m.role.getD ""
    content := match m.content with
      | RawContent.str s => some s
      | _ => none
    tool_call_id := m.tool_call_id }

/-- The source `validateRequest`; `vt` is the abstract
`ToolService.validateTools`. -/
def validateRequest (vt : List ToolDefinition → Bool × List String)
    (req : RawRequest) : Except String ChatCompletionRequest :=
  match req.messages with
  | none => Except.error "messages field is required and must be an array"
  | some msgs =>
    if msgs.length == 0 then Except.error "messages array cannot be empty"
    else
      match firstMessageError msgs with
      | some e => Except.error e
      | none =>
        let toolsErr : Option String :=
          match req.tools with
          | some tl =>
            if (vt tl).1 then none
            else some ("Invalid tools: " ++ String.intercalate ", " (vt tl).2)
          | none => none
        match toolsErr with
        | some e => Except.error e
        | none =>
          Except.ok
            { model := match req.model with
                | some m => if m == "" then DEFAULT_MODEL else m
                | none => DEFAULT_MODEL
              messages := msgs.map toTypedMessage
              stream := req.stream.getD false
              tools := req.tools
              tool_choice := req.tool_choice }

/-! ## Concrete instances used by the witnesses and counterexamples -/

/-- A ToolService behaviour that declares everything valid and detects no
function-call marker. -/
def tsTrivial : ToolServiceModel :=
  { shouldUseFunctionCalling := fun _ _ => false
    validateTools := fun _ => (true, [])
    generateToolSystemPrompt := fun _ _ => ""
    detectFunctionCalls := fun _ => false
    extractFunctionCalls := fun _ => [] }

/-- A conversation opening with a system message. -/
def reqC1 : ChatCompletionRequest :=
  { model := "gpt-4o-mini"
    messages := [{ role := "system", content := some "You are terse." },
                 { role := "user", content := some "hi" }] }

/-- A declared weather tool. -/
def weatherTool : ToolDefinition :=
  { function := { name := "get_weather" } }

/-- A request forcing a tool call (`tool_choice: "required"`). -/
def reqC5 : ChatCompletionRequest :=
  { model := "gpt-4o-mini"
    messages := [{ role := "user", content := some "hello" }]
    tools := some [weatherTool]
    tool_choice := some ToolChoice.tcRequired }

/-- An HTTP-200 body that is JSON announcing an error action. -/
def bodyC2 : String := "\x7b\"action\":\"error\",\"status\":429\x7d"

/-- The `JSON.parse` oracle on that body, matching real JSON semantics:
`bodyC2` parses to an object whose `action` field is `"error"`. -/
def parseActionC2 : String → Option String :=
  fun s => if s == bodyC2 then some "error" else none

/-- Per-line oracle for that body: no line of it starts with `data: `, so no
message is ever extracted. -/
def lineMessageC2 : String → Option String := fun _ => none

/-- The completion the plain path produces for `reqC1` and upstream text
`"hello"` (prompt text `You are terse. hi` has 17 characters, hence 5
estimated tokens; `hello` has 5, hence 2). -/
def wResp : ChatCompletionResponse :=
  { id := "w"
    created := 0
    model := "gpt-4o-mini"
    choices := [{ index := 0
                  message := { role := "assistant", content := some "hello" }
                  finish_reason := some "stop" }]
    usage := { prompt_tokens := 5, completion_tokens := 2, total_tokens := 7 } }

/-! ## Helper lemmas -/

/-- Ceiling division characterization of `estimateTokens`. -/
theorem estimateTokens_eq_ceil (s : String) :
    (estimateTokens s : ℤ) = ⌈(s.length : ℚ) / 4⌉ := by
  have h4 : (0 : ℚ) < 4 := by norm_num
  have hA : (s.length : ℚ) ≤ 4 * (estimateTokens s : ℚ) := by
    exact_mod_cast (by unfold estimateTokens; omega : s.length ≤ 4 * estimateTokens s)
  have hB : 4 * (estimateTokens s : ℚ) < (s.length : ℚ) + 4 := by
    exact_mod_cast (by unfold estimateTokens; omega : 4 * estimateTokens s < s.length + 4)
  rw [eq_comm, Int.ceil_eq_iff]
  constructor
  · rw [lt_div_iff₀ h4]
    push_cast
    linarith
  · rw [div_le_iff₀ h4]
    push_cast
    linarith

/-- The continuation of the stream pump after the first fragment went out:
every remaining fragment becomes a content-only chunk. -/
theorem streamPump_false (id : String) (created : Nat) (model : String)
    (vs : List String) :
    streamPump id created model vs false =
      vs.map (fun w =>
        StreamEvent.chunk (mkStreamChunk id created model { content := some w } none)) ++
      streamTail id created model := by
  induction vs with
  | nil => rfl
  | cons v vs ih => simp [streamPump, ih]

/-- Contents carried by the pump output are the fragments, in order. -/
theorem chunkContents_streamPump_eq (id : String) (created : Nat)
    (model : String) (vs : List String) (b : Bool) :
    chunkContents (streamPump id created model vs b) = vs := by
  induction vs generalizing b with
  | nil => rfl
  | cons v vs ih =>
    cases b <;> exact congrArg (fun l => v :: l) (ih false)

/-- The keyword heuristic falls back to the first declared tool when no
keyword fires. -/
theorem chooseFunction_default (hd : ToolDefinition) (tl : List ToolDefinition)
    (userContent : String)
    (h1 : strIncludes (jsToLower userContent) "time" = false)
    (h2 : strIncludes (jsToLower userContent) "calculate" = false)
    (h3 : mathTest userContent = false)
    (h4 : strIncludes (jsToLower userContent) "weather" = false) :
    chooseFunction hd tl userContent = hd.function.name := by
  unfold chooseFunction
  simp [h1, h2, h3, h4]

/-! ## Claim theorems -/

/-- C1, counterexample: the claim says no message with role `system` or
`tool` leaves the translator, but `transformToDuckAIRequest` sends the
message list of a conversation opening with a system message upstream
unchanged, system role included. -/
theorem c1_system_role_reaches_upstream :
    (transformToDuckAIRequest reqC1).messages.map (fun m => m.role) = ["system", "user"] ∧
    ¬ (∀ m ∈ (transformToDuckAIRequest reqC1).messages, m.role ≠ "system" ∧ m.role ≠ "tool") := by
  refine ⟨rfl, ?_⟩
  decide

/-- C1, amended: the translator performs no role folding at all.
`transformToDuckAIRequest` passes the inbound message list upstream
unchanged (system and tool roles included), and the tools path only prepends
one generated user instruction message in front of the otherwise unchanged
list. -/
theorem c1_translator_passes_messages_through (ts : ToolServiceModel)
    (request : ChatCompletionRequest) :
    (transformToDuckAIRequest request).messages = request.messages ∧
    upstreamMessagesWithTools ts request =
      (match request.tools with
       | some (hd :: tl) =>
         toolInstructionMessage ts (hd :: tl) request.tool_choice :: request.messages
       | _ => request.messages) := by
  refine ⟨rfl, ?_⟩
  unfold upstreamMessagesWithTools transformToDuckAIRequest modifiedMessagesOf
  rcases request.tools with _ | tl
  · rfl
  · cases tl <;> rfl

/-- C2: the claim says an HTTP-200 body whose JSON announces
`action: "error"` makes the chat call fail with an upstream error.  The
source does throw inside its error-check try-block, but that throw is caught
by the same block's catch clause and swallowed, so the call continues and
(with no `data: ` lines to extract) returns the fallback apology as a normal
completion instead of failing. -/
theorem c2_error_action_swallowed :
    chatErrorCheck parseActionC2 bodyC2 = Except.error "Duck.ai error" ∧
    duckChatBody parseActionC2 lineMessageC2 bodyC2 = APOLOGY := by
  constructor
  · rfl
  · rfl

/-- C3, counterexample: for the three upstream fragments `"Hi"`, `" there"`,
`"!"` the plain streaming path does not emit a content-free role-only first
chunk followed by three content chunks; its first chunk already carries the
first fragment's content next to the role. -/
theorem c3_first_chunk_carries_content :
    createChatCompletionStreamEvents "chatcmpl-x" 0 "gpt-4o-mini" ["Hi", " there", "!"] ≠
      specStreamEvents "chatcmpl-x" 0 "gpt-4o-mini" ["Hi", " there", "!"] := by
  decide

/-- C3, amended: the emitted event sequence is exactly one chunk whose delta
carries role `assistant` together with the first fragment's content, then one
content-only chunk per remaining fragment in arrival order, then the terminal
chunk with finish_reason `stop`, then the `[DONE]` marker; across all chunks
the carried contents are exactly the fragments in order. -/
theorem c3_stream_shape (id : String) (created : Nat) (model : String)
    (fragments : List String) :
    createChatCompletionStreamEvents id created model fragments =
      (match fragments with
       | [] => streamTail id created model
       | v :: vs =>
         StreamEvent.chunk (mkStreamChunk id created model
           { role := some "assistant", content := some v } none) ::
           vs.map (fun w =>
             StreamEvent.chunk (mkStreamChunk id created model { content := some w } none)) ++
           streamTail id created model) ∧
    chunkContents (createChatCompletionStreamEvents id created model fragments) = fragments := by
  refine ⟨?_, chunkContents_streamPump_eq id created model fragments true⟩
  cases fragments with
  | nil => rfl
  | cons v vs =>
    show StreamEvent.chunk _ :: streamPump id created model vs false = _
    rw [streamPump_false]
    rfl

/-- C6: an upstream reply whose accumulated extracted text trims to empty
makes the non-streaming chat call return the fixed apology string, which is
not the empty content. -/
theorem c6_empty_text_yields_apology
    (parseAction lineMessage : String → Option String) (text : String)
    (h : jsTrim (extractLlmResponse lineMessage text) = "") :
    duckChatBody parseAction lineMessage text = APOLOGY ∧ APOLOGY ≠ "" := by
  constructor
  · unfold duckChatBody
    rw [h]
    rfl
  · decide

/-- C6 witness: the empty body extracts nothing and yields the apology. -/
theorem c6_empty_text_yields_apology_witness :
    duckChatBody (fun _ => none) (fun _ => none) "" = APOLOGY :=
  (c6_empty_text_yields_apology (fun _ => none) (fun _ => none) "" (by rfl)).1

/-- C7: for a challenge result with a nonempty fingerprint list, the emitted
token is the base64 of the JSON serialization of the result object after its
first fingerprint is replaced by the fixed canonical browser identifier and
every fingerprint is then replaced by the base64 of its SHA-256 digest. -/
theorem c7_token_pipeline (sha256 : String → List Nat)
    (stringify : VqdResult → String) (result : VqdResult)
    (h : result.client_hashes ≠ []) :
    getEncodedVqdHash sha256 stringify result =
      btoa (stringify
        { result with
          client_hashes := (result.client_hashes.set 0 FIXED_UA).map
            (fun t => String.mk (b64encodeList (sha256 t))) }) := by
  unfold getEncodedVqdHash jsIndexZeroSet
  cases hch : result.client_hashes with
  | nil => exact absurd hch h
  | cons a l => simp [hch]

/-- C7 witness: the pipeline equation at a concrete hash, serializer and
result. -/
theorem c7_token_pipeline_witness :
    getEncodedVqdHash (fun _ => [1, 2, 3])
        (fun r => String.intercalate "|" r.client_hashes)
        { client_hashes := ["a", "b"] } =
      btoa (String.intercalate "|"
        (VqdResult.client_hashes
          { client_hashes :=
              (List.set ["a", "b"] 0 FIXED_UA).map
                (fun t => String.mk (b64encodeList ((fun _ => [1, 2, 3]) t))) })) :=
  c7_token_pipeline (fun _ => [1, 2, 3])
    (fun r => String.intercalate "|" r.client_hashes)
    { client_hashes := ["a", "b"] } (by decide)

/-- C8: `estimateTokens` is the ceiling of a quarter of the string length,
and is monotonic non-decreasing in the length. -/
theorem c8_estimate_tokens_ceil_monotone :
    (∀ s : String, (estimateTokens s : ℤ) = ⌈(s.length : ℚ) / 4⌉) ∧
    (∀ s t : String, s.length ≤ t.length → estimateTokens s ≤ estimateTokens t) := by
  refine ⟨estimateTokens_eq_ceil, ?_⟩
  intro s t h
  unfold estimateTokens
  exact Nat.div_le_div_right (by omega)

/-- C8 witness: the ceiling value and monotonicity at concrete strings. -/
theorem c8_estimate_tokens_witness :
    (estimateTokens "ab" : ℤ) = ⌈(("ab".length : ℚ)) / 4⌉ ∧
    estimateTokens "ab" ≤ estimateTokens "abcdef" :=
  ⟨c8_estimate_tokens_ceil_monotone.1 "ab",
   c8_estimate_tokens_ceil_monotone.2 "ab" "abcdef" (by decide)⟩

/-- C9: a request body whose messages field is an empty array is rejected by
validation, just like a missing or non-array messages field. -/
theorem c9_empty_messages_rejected
    (vt : List ToolDefinition → Bool × List String) (req : RawRequest) :
    (req.messages = some [] →
      validateRequest vt req = Except.error "messages array cannot be empty") ∧
    (req.messages = none →
      validateRequest vt req = Except.error "messages field is required and must be an array") := by
  constructor <;> intro h <;> simp [validateRequest, h]

/-- C9 witness: the empty conversation is rejected. -/
theorem c9_empty_messages_rejected_witness :
    validateRequest (fun _ => (true, [])) { messages := some [] } =
      Except.error "messages array cannot be empty" :=
  (c9_empty_messages_rejected (fun _ => (true, [])) { messages := some [] }).1 rfl

/-- C4: over positive recorded timestamps, the admission check returns no
wait exactly when the trailing window holds fewer than 20 timestamps and at
least 1000 ms elapsed since the last recorded call (and its wait flag and a
zero computed wait always agree); a full window yields the wait
`oldest + 60 s - now + 100 ms` clamped below at zero; a violated minimum
interval alone yields exactly the remaining deficit. -/
theorem c4_admission (info : RateLimitInfo) (now : Int)
    (hpos : ∀ t ∈ info.requestTimestamps, 0 < t) :
    (shouldWaitBeforeRequest now info = (false, 0) ↔
      ((cleanOldTimestamps now info.requestTimestamps).length < MAX_REQUESTS_PER_MINUTE ∧
        MIN_REQUEST_INTERVAL_MS ≤ now - info.lastRequestTime)) ∧
    ((shouldWaitBeforeRequest now info).1 = false ↔
      (shouldWaitBeforeRequest now info).2 = 0) ∧
    (∀ oldest rest,
      cleanOldTimestamps now info.requestTimestamps = oldest :: rest →
      MAX_REQUESTS_PER_MINUTE ≤ (cleanOldTimestamps now info.requestTimestamps).length →
      shouldWaitBeforeRequest now info =
        (true, max 0 (oldest + WINDOW_SIZE_MS - now + 100))) ∧
    ((cleanOldTimestamps now info.requestTimestamps).length < MAX_REQUESTS_PER_MINUTE →
      now - info.lastRequestTime < MIN_REQUEST_INTERVAL_MS →
      shouldWaitBeforeRequest now info =
        (true, MIN_REQUEST_INTERVAL_MS - (now - info.lastRequestTime))) := by
  have hsub : ∀ t ∈ cleanOldTimestamps now info.requestTimestamps,
      0 < t ∧ now - WINDOW_SIZE_MS < t := by
    intro t ht
    unfold cleanOldTimestamps at ht
    have h1 := List.mem_filter.mp ht
    exact ⟨hpos t h1.1, by simpa using h1.2⟩
  by_cases hlen : MAX_REQUESTS_PER_MINUTE ≤
      (cleanOldTimestamps now info.requestTimestamps).length
  · cases hc : cleanOldTimestamps now info.requestTimestamps with
    | nil =>
      rw [hc] at hlen
      exact absurd hlen (by decide)
    | cons o rest =>
      rw [hc] at hlen
      have ho := hsub o (by rw [hc]; exact List.mem_cons_self o rest)
      have hxpos : 0 < o + WINDOW_SIZE_MS - now + 100 := by
        have h2 := ho.2
        omega
      have hx : (0 : Int) ≤ o + WINDOW_SIZE_MS - now + 100 := le_of_lt hxpos
      have hval : shouldWaitBeforeRequest now info =
          (true, max 0 (o + WINDOW_SIZE_MS - now + 100)) := by
        simp only [shouldWaitBeforeRequest, hc]
        rw [if_pos hlen]
        simp only [List.head?]
        rw [if_pos (by omega : o ≠ 0)]
      refine ⟨?_, ?_, ?_, ?_⟩
      · rw [hval]
        constructor
        · intro habs
          simp at habs
        · rintro ⟨h1, -⟩
          exact absurd h1 (by omega)
      · rw [hval]
        simp only [max_eq_right hx]
        constructor
        · intro h1
          simp at h1
        · intro h2
          exfalso
          simp only [Prod.snd] at h2
          omega
      · intro oldest rest2 heq _
        injection heq with h1 h2
        rw [← h1]
        exact hval
      · intro hlen2 _
        exact absurd hlen2 (by omega)
  · have hval : shouldWaitBeforeRequest now info = intervalCheck now info := by
      simp only [shouldWaitBeforeRequest]
      rw [if_neg hlen]
    by_cases hint : now - info.lastRequestTime < MIN_REQUEST_INTERVAL_MS
    · have hval2 : shouldWaitBeforeRequest now info =
          (true, MIN_REQUEST_INTERVAL_MS - (now - info.lastRequestTime)) := by
        rw [hval]
        unfold intervalCheck
        rw [if_pos hint]
      refine ⟨?_, ?_, ?_, ?_⟩
      · rw [hval2]
        constructor
        · intro habs
          simp at habs
        · rintro ⟨-, h2⟩
          exact absurd h2 (by omega)
      · rw [hval2]
        constructor
        · intro h1
          simp at h1
        · intro h2
          simp only at h2
          unfold MIN_REQUEST_INTERVAL_MS at hint h2
          omega
      · intro oldest rest heq hlen2
        exact absurd hlen2 hlen
      · intro _ _
        exact hval2
    · have hval2 : shouldWaitBeforeRequest now info = (false, 0) := by
        rw [hval]
        unfold intervalCheck
        rw [if_neg hint]
      refine ⟨?_, ?_, ?_, ?_⟩
      · rw [hval2]
        exact ⟨fun _ => ⟨by omega, by omega⟩, fun _ => rfl⟩
      · rw [hval2]
        simp
      · intro oldest rest heq hlen2
        exact absurd hlen2 hlen
      · intro _ hint2
        exact absurd hint2 hint

/-- C4 witness: two calls 100 ms apart make the second wait exactly 900 ms. -/
theorem c4_admission_witness :
    shouldWaitBeforeRequest 5100 ⟨[5000], 5000⟩ = (true, 900) := by
  have h := (c4_admission ⟨[5000], 5000⟩ 5100 (by decide)).2.2.2
    (by decide) (by decide)
  rw [h]
  decide

/-- C5: when tools are declared and valid, the tool choice forces a call
(`required` or a named function), the conversation is nonempty and no
function-call marker is detected in the upstream text, the completion holds
exactly one synthesized tool call and finish_reason is `tool_calls`; an
explicitly named function is used as-is, otherwise the name comes from the
keyword heuristic over the last message's text, which defaults to the first
declared tool when no keyword fires. -/
theorem c5_forced_tool_call (ts : ToolServiceModel) (id : String)
    (created nowMs : Nat) (request : ChatCompletionRequest) (response : String)
    (hd : ToolDefinition) (tl : List ToolDefinition)
    (um : ChatCompletionMessage)
    (htools : request.tools = some (hd :: tl))
    (hvalid : (ts.validateTools (hd :: tl)).1 = true)
    (hdetect : ts.detectFunctionCalls response = false)
    (hlast : request.messages.getLast? = some um)
    (hforced : isForcedChoice request.tool_choice = true) :
    ∃ call : ToolCall,
      createChatCompletionWithTools ts id created nowMs request response =
        Except.ok (forcedCompletion id created request (modifiedMessagesOf ts request) call) ∧
      (forcedCompletion id created request (modifiedMessagesOf ts request) call).choices.map
          (fun c => (c.finish_reason, c.message.tool_calls)) =
        [(some "tool_calls", some [call])] ∧
      call.function.name =
        forcedFunctionName request.tool_choice hd tl (um.content.getD "") ∧
      (∀ n, request.tool_choice = some (ToolChoice.tcFunction n) →
        call.function.name = n) ∧
      (request.tool_choice = some ToolChoice.tcRequired →
        strIncludes (jsToLower (um.content.getD "")) "time" = false →
        strIncludes (jsToLower (um.content.getD "")) "calculate" = false →
        mathTest (um.content.getD "") = false →
        strIncludes (jsToLower (um.content.getD "")) "weather" = false →
        call.function.name = hd.function.name) := by
  have hred : createChatCompletionWithTools ts id created nowMs request response =
      noFunctionCallsPath id created nowMs request response (modifiedMessagesOf ts request) := by
    simp [createChatCompletionWithTools, withToolsAfterValidation, htools, hvalid, hdetect]
  have hred2 : noFunctionCallsPath id created nowMs request response
        (modifiedMessagesOf ts request) =
      Except.ok (forcedCompletion id created request (modifiedMessagesOf ts request)
        (forcedToolCallOf nowMs
          (forcedFunctionName request.tool_choice hd tl (um.content.getD ""))
          (forcedArgs
            (forcedFunctionName request.tool_choice hd tl (um.content.getD ""))
            (um.content.getD "")))) := by
    simp [noFunctionCallsPath, htools, hforced, hlast]
  refine ⟨forcedToolCallOf nowMs
      (forcedFunctionName request.tool_choice hd tl (um.content.getD ""))
      (forcedArgs
        (forcedFunctionName request.tool_choice hd tl (um.content.getD ""))
        (um.content.getD "")), ?_, ?_, ?_, ?_, ?_⟩
  · rw [hred, hred2]
  · rfl
  · rfl
  · intro n hreq
    show forcedFunctionName request.tool_choice hd tl (um.content.getD "") = n
    rw [hreq]
    rfl
  · intro hreq h1 h2 h3 h4
    show forcedFunctionName request.tool_choice hd tl (um.content.getD "") =
      hd.function.name
    rw [hreq]
    exact chooseFunction_default hd tl _ h1 h2 h3 h4

/-- C5 witness: the forced path at a concrete request with one declared tool
and `tool_choice: "required"`. -/
theorem c5_forced_tool_call_witness :
    ∃ call : ToolCall,
      createChatCompletionWithTools tsTrivial "w5" 0 0 reqC5 "plain text" =
        Except.ok (forcedCompletion "w5" 0 reqC5 (modifiedMessagesOf tsTrivial reqC5) call) := by
  obtain ⟨call, h1, -, -, -, -⟩ :=
    c5_forced_tool_call tsTrivial "w5" 0 0 reqC5 "plain text" weatherTool []
      { role := "user", content := some "hello" } rfl rfl rfl (by rfl) rfl
  exact ⟨call, h1⟩

/-- C10: every non-streaming completion the service produces satisfies
usage.total_tokens = usage.prompt_tokens + usage.completion_tokens, on the
plain path, the extracted-tool-call path and the forced-tool-call path
alike. -/
theorem c10_usage_total_sum (ts : ToolServiceModel) (id : String)
    (created nowMs : Nat) (request : ChatCompletionRequest) (response : String)
    (r : ChatCompletionResponse)
    (h : createChatCompletion ts id created nowMs request response = Except.ok r) :
    r.usage.total_tokens = r.usage.prompt_tokens + r.usage.completion_tokens := by
  unfold createChatCompletion createChatCompletionWithTools withToolsAfterValidation
    noFunctionCallsPath at h
  repeat' split at h
  all_goals
    first
    | exact Except.noConfusion h
    | (injection h with h1; subst h1; rfl)

/-- C10 witness: the plain path at a concrete request satisfies the sum. -/
theorem c10_usage_total_sum_witness :
    createChatCompletion tsTrivial "w" 0 0 reqC1 "hello" = Except.ok wResp ∧
    wResp.usage.total_tokens = wResp.usage.prompt_tokens + wResp.usage.completion_tokens :=
  ⟨rfl, c10_usage_total_sum tsTrivial "w" 0 0 reqC1 "hello" wResp rfl⟩

end Duckai
